import Mathlib

/-!
# TransactionMail — verification of the delivery pipeline against its specification

This file gives a shallow embedding, in Lean 4, of the queue-backed delivery
pipeline of the TransactionMail repository: the email-send API service
(`EmailService.sendEmail`), the idempotency store (`IdempotencyService`),
the inbound SMTP relay (`SmtpRelayServer`), the email delivery worker
(`EmailProcessor.process`), the webhook delivery worker
(`WebhookProcessor.process`), the webhook fan-out dispatcher
(`WebhookService.trigger`), and the shared utilities (`calculateBackoff`,
`signWebhookPayload` / `verifyWebhookPayload`).

Conventions of the embedding:
* Database tables are lists of rows inside an explicit `Db` state record;
  Prisma calls become pure state transformers.  A `create` against a table
  with a violated unique index is an `Except.error DbError.uniqueViolation`,
  mirroring Prisma's thrown `P2002`.
* External collaborators (the bcrypt comparison oracle, the HMAC digest,
  the SMTP transport outcome, the webhook HTTP fetch outcome, the random
  jitter, the wall clock, generated ids) are passed in as explicit inputs,
  as the specification treats them as collaborators outside the core.
* Timestamps are `Nat` milliseconds; the backoff arithmetic, which mixes a
  real-valued random jitter into integer delays, is carried out in `ℚ`.
-/

namespace TransactionMail

/-! ## Shared data model (packages/shared, prisma schema) -/

/-- Message lifecycle status, from the `MessageStatus` enum of the Prisma
schema (migration `20260129075256_init`). -/
inductive MessageStatus where
  | QUEUED | PROCESSING | SENT | DELIVERED | BOUNCED | COMPLAINED | FAILED | RETRYING
deriving Repr, DecidableEq

/-- Event-log entry type, from the `EventType` enum of the Prisma schema. -/
inductive EventType where
  | QUEUED | SENT | DELIVERED | BOUNCED | COMPLAINED | OPENED | CLICKED | FAILED | RETRY_SCHEDULED
deriving Repr, DecidableEq

/-- An email address with optional display name (`{email, name?}` in
`packages/shared/src/types.ts`). -/
structure EmailAddr where
  email : String
  name : Option String
deriving Repr, DecidableEq

/-- Attachment as carried inside a `SendEmailJob` (base64 `content`). -/
structure Attachment where
  filename : String
  content : String
  contentType : Option String
deriving Repr, DecidableEq

/-- `SendEmailJob` payload (packages/shared/src/types.ts). -/
structure SendEmailJobData where
  messageId : String
  projectId : String
  toAddrs : List EmailAddr
  fromAddr : EmailAddr
  replyTo : Option String
  subject : String
  htmlBody : Option String
  textBody : Option String
  attachments : Option (List Attachment)
  headers : List (String × String)
deriving Repr, DecidableEq

/-- Exponential backoff policy entry of a BullMQ job option set. -/
structure BackoffOpt where
  kind : String
  delay : ℚ
deriving Repr, DecidableEq

/-- BullMQ job options; `none` fields mean the option was not supplied and
BullMQ's own default applies. -/
structure JobOptions where
  attempts : Option Nat
  backoff : Option BackoffOpt
  priority : Option Nat
  removeOnComplete : Option Nat
  removeOnFail : Option Nat
deriving Repr, DecidableEq

/-- The empty option set (a `Queue.add` call with no options object). -/
def JobOptions.empty : JobOptions :=
  { attempts := none, backoff := none, priority := none
    removeOnComplete := none, removeOnFail := none }

/-- BullMQ merges per-`add` options over the queue's `defaultJobOptions`;
an option supplied at `add` time wins. -/
def mergeJobOptions (defaults perJob : JobOptions) : JobOptions :=
  { attempts := perJob.attempts.orElse (fun _ => defaults.attempts)
    backoff := perJob.backoff.orElse (fun _ => defaults.backoff)
    priority := perJob.priority.orElse (fun _ => defaults.priority)
    removeOnComplete := perJob.removeOnComplete.orElse (fun _ => defaults.removeOnComplete)
    removeOnFail := perJob.removeOnFail.orElse (fun _ => defaults.removeOnFail) }

/-- `defaultJobOptions` of the API's `send-email` queue
(apps/api/src/config.ts, `config.queue.defaultJobOptions`):
`attempts: 3, backoff: {type: exponential, delay: 5000}`. -/
def apiQueueDefaultJobOptions : JobOptions :=
  { attempts := some 3
    backoff := some { kind := "exponential", delay := 5000 }
    priority := none
    removeOnComplete := some 100
    removeOnFail := some 50 }

/-- The SMTP relay constructs its `send-email` queue with only a connection
and a key namespace and no `defaultJobOptions`
(apps/api/src/smtpRelay.ts, constructor), so every option is unset. -/
def smtpRelayQueueDefaultJobOptions : JobOptions := JobOptions.empty

/-- The API's `webhook` queue defaults (apps/api/src/plugins/queue.ts):
the shared defaults with `attempts` overridden to 5. -/
def webhookQueueDefaultJobOptions : JobOptions :=
  { apiQueueDefaultJobOptions with attempts := some 5 }

/-! ## calculateBackoff (packages/shared/src/utils.ts)

`calculateBackoff(attempt, baseDelay = 1000, maxDelay = 60000)` computes
`min(baseDelay * 2^attempt + jitter, maxDelay)` where
`jitter = Math.random() * 1000` lies in `[0, 1000)`.  The random sample is
an input of the embedding. -/

/-- Embedding of `calculateBackoff`; `jitter` is the value of
`Math.random() * 1000` for this call. -/
def calculateBackoff (attempt : Nat) (jitter : ℚ) (baseDelay : ℚ) (maxDelay : ℚ) : ℚ :=
  min (baseDelay * 2 ^ attempt + jitter) maxDelay

/-- Default base delay of `calculateBackoff` (1000 ms). -/
def backoffDefaultBase : ℚ := 1000

/-- Default max delay of `calculateBackoff` (60000 ms). -/
def backoffDefaultMax : ℚ := 60000

/-! ## Webhook payload signing (packages/shared/src/crypto.ts)

`signWebhookPayload` and `verifyWebhookPayload` call Node's
`crypto.createHmac('sha256', secret).update(payload).digest('hex')`; the
HMAC-SHA256 collaborator is an input `hmacHex : String → String → String`
(secret, payload ↦ lowercase hex digest).  `Date.now().toString()` is the
input `tsRepr`. -/

/-- Characters a Node `digest('hex')` string is made of. -/
def isHexChar (c : Char) : Bool :=
  (('a' ≤ c && c ≤ 'f') || ('0' ≤ c && c ≤ '9'))

/-- Embedding of `signWebhookPayload`: the header is
`t=<ms-timestamp>,v1=<hex digest>`. -/
def signWebhookPayload (hmacHex : String → String → String)
    (tsRepr : String) (payload secret : String) : String :=
  "t=" ++ tsRepr ++ ",v1=" ++ hmacHex secret payload

/-- The first match of the JS regex `v1=([a-f0-9]+)` over a character list:
find the leftmost occurrence of `v1=` followed by at least one hex
character, and capture the maximal hex run after it. -/
def extractV1Group : List Char → Option (List Char)
  | [] => none
  | c :: cs =>
    if c = 'v' then
      match cs with
      | '1' :: '=' :: rest =>
        (match rest.takeWhile isHexChar with
         | [] => extractV1Group cs
         | grp => some grp)
      | _ => extractV1Group cs
    else extractV1Group cs

/-- Embedding of `verifyWebhookPayload`: recompute the digest, extract the
`v1=` capture group, and compare with `crypto.timingSafeEqual` (which
throws on length mismatch; the `catch` turns that into `false`, so the net
effect is string equality). -/
def verifyWebhookPayload (hmacHex : String → String → String)
    (payload signature secret : String) : Bool :=
  let expectedSignature := hmacHex secret payload
  match extractV1Group signature.data with
  | none => false
  | some grp => String.mk grp = expectedSignature

/-! ## Database state

Tables relevant to the claims, as lists of rows; append order is creation
order (newest first). -/

/-- A `messages` row (columns the pipeline reads or writes). -/
structure MessageRow where
  id : String
  projectId : String
  toEmail : String
  toName : Option String
  fromEmail : String
  fromName : Option String
  replyTo : Option String
  subject : String
  htmlBody : Option String
  textBody : Option String
  templateId : Option String
  status : MessageStatus
  error : Option String
  externalId : Option String
  tags : List String
  idempotencyKey : Option String
  sentAt : Option Nat
  deliveredAt : Option Nat
deriving Repr, DecidableEq

/-- Structured event payloads, one constructor per payload shape the
pipeline writes (`payload` is JSONB in the schema). -/
inductive EventPayload where
  /-- API send path: `{apiKeyId, timestamp}`. -/
  | queuedApi (apiKeyId : String) (timestamp : Nat)
  /-- SMTP relay path: `{source: 'smtp-relay'}`. -/
  | queuedSmtp
  /-- `{providerMessageId, response}`. -/
  | sent (providerMessageId : String) (response : String)
  /-- `{simulated}`. -/
  | delivered (simulated : Bool)
  /-- `{attempt, error, nextRetryAt}`. -/
  | retryScheduled (attempt : Nat) (error : String) (nextRetryAt : ℚ)
  /-- `{error, attempts}`. -/
  | failed (error : String) (attempts : Nat)
deriving Repr, DecidableEq

/-- An `events` row: append-only log entry tied to a message. -/
structure EventRow where
  messageId : String
  kind : EventType
  payload : EventPayload
deriving Repr, DecidableEq

/-- A `suppressions` row; `(projectId, email)` is unique together. -/
structure SuppressionRow where
  projectId : String
  email : String
  reason : String
  source : String
  metadata : List (String × String)
deriving Repr, DecidableEq

/-- A `webhooks` row (webhook subscription). -/
structure WebhookRow where
  id : String
  projectId : String
  url : String
  secret : String
  eventTypes : List String
  active : Bool
  successCount : Nat
  failCount : Nat
  lastTriggeredAt : Option Nat
deriving Repr, DecidableEq

/-- A `webhook_deliveries` row: one recorded delivery attempt. -/
structure WebhookDeliveryRow where
  webhookId : String
  eventType : String
  responseStatus : Option Nat
  responseBody : Option String
  error : Option String
deriving Repr, DecidableEq

/-- An `idempotency_keys` row. -/
structure IdemRecord where
  id : String
  key : String
  scope : String
  responseMessageId : String
  responseStatus : MessageStatus
  expiresAt : Nat
deriving Repr, DecidableEq

/-- A `templates` row (fields the send path reads). -/
structure TemplateRow where
  id : String
  projectId : String
  subject : String
  html : Option String
  text : Option String
deriving Repr, DecidableEq

/-- The wire payload of a `webhook` job: `{event, timestamp, data}`. -/
structure WebhookPayload where
  event : String
  timestamp : Nat
  data : List (String × String)
deriving Repr, DecidableEq

/-- A `webhook` job as placed on the queue. -/
structure WebhookQueueJob where
  name : String
  webhookId : String
  eventType : String
  payload : WebhookPayload
  opts : JobOptions
deriving Repr, DecidableEq

/-- A `send-email` job as placed on the queue. -/
structure SendEmailQueueJob where
  name : String
  data : SendEmailJobData
  opts : JobOptions
deriving Repr, DecidableEq

/-- Shared persistent state: database tables plus the two job queues. -/
structure Db where
  messages : List MessageRow
  events : List EventRow
  suppressions : List SuppressionRow
  webhooks : List WebhookRow
  webhookDeliveries : List WebhookDeliveryRow
  idemKeys : List IdemRecord
  templates : List TemplateRow
  sendEmailJobs : List SendEmailQueueJob
  webhookJobs : List WebhookQueueJob
deriving Repr, DecidableEq

/-- Prisma errors surfaced to the embedding. -/
inductive DbError where
  | uniqueViolation
deriving Repr, DecidableEq

/-! ## Webhook delivery worker (apps/worker/src/processors/webhook.ts) -/

/-- Outcome of the `fetch` POST to the subscriber endpoint: either an HTTP
response (any status; `body` is `none` when reading the body failed, per
`.catch(() => null)`), or a thrown transport/timeout error. -/
inductive FetchOutcome where
  | response (status : Nat) (body : Option String)
  | transportError (msg : String)
deriving Repr, DecidableEq

/-- `response.ok` of the Fetch API: status in `[200, 300)`. -/
def responseOk (status : Nat) : Bool := 200 ≤ status && status < 300

/-- `prisma.webhook.update` incrementing one counter and touching
`lastTriggeredAt`. -/
def webhookBumpCounters (db : Db) (webhookId : String)
    (succDelta failDelta : Nat) (now : Nat) : Db :=
  { db with webhooks := db.webhooks.map (fun w =>
      if w.id = webhookId then
        { w with successCount := w.successCount + succDelta
                 failCount := w.failCount + failDelta
                 lastTriggeredAt := some now }
      else w) }

/-- `prisma.webhookDelivery.create`. -/
def recordWebhookDelivery (db : Db) (d : WebhookDeliveryRow) : Db :=
  { db with webhookDeliveries := d :: db.webhookDeliveries }

/-- Result of one `WebhookProcessor.process` invocation: the updated state,
the `webhook_deliveries` rows this invocation created (in creation order),
and the error re-thrown to BullMQ, if any. -/
structure WebhookProcResult where
  db : Db
  newDeliveries : List WebhookDeliveryRow
  rethrow : Option String
deriving Repr, DecidableEq

/-- Embedding of `WebhookProcessor.process`.  Note the control flow of the
source: the `throw new Error('HTTP ' + status)` issued in the non-2xx
branch sits inside the same `try` block, so it is caught by the function's
own `catch`, which records a second delivery row and bumps the fail
counter a second time before re-throwing. -/
def WebhookProcessor.process (db : Db) (job : WebhookQueueJob)
    (fetchResult : FetchOutcome) (now : Nat) : WebhookProcResult :=
  match db.webhooks.find? (fun w => w.id = job.webhookId) with
  | none => { db := db, newDeliveries := [], rethrow := none }
  | some webhook =>
    if !webhook.active then { db := db, newDeliveries := [], rethrow := none }
    else
      match fetchResult with
      | .response status body =>
        let d1 : WebhookDeliveryRow :=
          { webhookId := job.webhookId, eventType := job.eventType
            responseStatus := some status, responseBody := body, error := none }
        let db1 := recordWebhookDelivery db d1
        if responseOk status then
          { db := webhookBumpCounters db1 job.webhookId 1 0 now
            newDeliveries := [d1], rethrow := none }
        else
          let db2 := webhookBumpCounters db1 job.webhookId 0 1 now
          let errorMessage := "HTTP " ++ toString status
          let d2 : WebhookDeliveryRow :=
            { webhookId := job.webhookId, eventType := job.eventType
              responseStatus := none, responseBody := none, error := some errorMessage }
          let db3 := recordWebhookDelivery db2 d2
          { db := webhookBumpCounters db3 job.webhookId 0 1 now
            newDeliveries := [d1, d2], rethrow := some errorMessage }
      | .transportError errorMessage =>
        let d : WebhookDeliveryRow :=
          { webhookId := job.webhookId, eventType := job.eventType
            responseStatus := none, responseBody := none, error := some errorMessage }
        let db1 := recordWebhookDelivery db d
        { db := webhookBumpCounters db1 job.webhookId 0 1 now
          newDeliveries := [d], rethrow := some errorMessage }

/-! ## Email delivery worker (apps/worker/src/processors/email.ts) -/

/-- Outcome of `transporter.sendMail`: success carries the provider message
id and raw response; failure carries the thrown error's message. -/
inductive TransportResult where
  | sentOk (providerMessageId : String) (response : String)
  | failed (errorMessage : String)
deriving Repr, DecidableEq

/-- The slice of a leased BullMQ job the email processor reads:
`job.data`, `job.attemptsMade`, and `job.opts.attempts`. -/
structure EmailJobInfo where
  data : SendEmailJobData
  attemptsMade : Nat
  optsAttempts : Option Nat
deriving Repr, DecidableEq

/-- JavaScript `a || d` over an optional number: `undefined` and `0` are
falsy and fall through to the default. -/
def jsOrNat (a : Option Nat) (d : Nat) : Nat :=
  match a with
  | some n => if n = 0 then d else n
  | none => d

/-- `config.retry.maxAttempts` of the worker
(apps/worker/src/config.ts, `MAX_RETRY_ATTEMPTS` default). -/
def configRetryMaxAttempts : Nat := 3

/-- Field updates a `updateMessageStatus` call applies alongside the new
status (`extraData`); `none` leaves the column untouched. -/
structure MessageUpdate where
  status : MessageStatus
  error : Option String
  externalId : Option String
  sentAt : Option Nat
  deliveredAt : Option Nat
deriving Repr, DecidableEq

/-- A status-only update, no extra columns. -/
def MessageUpdate.plain (s : MessageStatus) : MessageUpdate :=
  { status := s, error := none, externalId := none, sentAt := none, deliveredAt := none }

/-- `prisma.message.update` as used by `updateMessageStatus`. -/
def updateMessageStatus (db : Db) (messageId : String) (u : MessageUpdate) : Db :=
  { db with messages := db.messages.map (fun m =>
      if m.id = messageId then
        { m with status := u.status
                 error := u.error.orElse (fun _ => m.error)
                 externalId := u.externalId.orElse (fun _ => m.externalId)
                 sentAt := u.sentAt.orElse (fun _ => m.sentAt)
                 deliveredAt := u.deliveredAt.orElse (fun _ => m.deliveredAt) }
      else m) }

/-- `prisma.event.create` as used by `recordEvent`. -/
def recordEvent (db : Db) (e : EventRow) : Db :=
  { db with events := e :: db.events }

/-- The fixed hard-bounce indicator list of `isHardBounceError`. -/
def hardBounceIndicators : List String :=
  ["recipient rejected", "user unknown", "mailbox unavailable",
   "invalid address", "no such user", "does not exist"]

/-- JS `String.prototype.includes`: some position of the haystack starts
with the needle. -/
def containsSub (hay needle : List Char) : Bool :=
  (List.range (hay.length + 1)).any (fun i => needle.isPrefixOf (hay.drop i))

/-- Embedding of `isHardBounceError`: case-insensitive substring match
against the indicator list. -/
def isHardBounceError (errorMessage : String) : Bool :=
  hardBounceIndicators.any (fun ind =>
    containsSub (errorMessage.data.map Char.toLower) ind.data)

/-- Embedding of `addToSuppressionList`: look the message up for its
project, then upsert a suppression row keyed on `(projectId, email)`.
If the message row is gone, return unchanged (the source returns early).
The source reads `to[0].email`; the caller passes that first recipient. -/
def addToSuppressionList (db : Db) (messageId email reason : String) : Db :=
  match db.messages.find? (fun m => m.id = messageId) with
  | none => db
  | some msg =>
    match db.suppressions.find? (fun s => s.projectId = msg.projectId && s.email = email) with
    | some _ =>
      { db with suppressions := db.suppressions.map (fun s =>
          if s.projectId = msg.projectId && s.email = email then
            { s with reason := "BOUNCE", metadata := [("error", reason)] }
          else s) }
    | none =>
      { db with suppressions :=
          { projectId := msg.projectId, email := email, reason := "BOUNCE"
            source := "bounce", metadata := [("error", reason)] } :: db.suppressions }

/-- Result of one `EmailProcessor.process` invocation: updated state, the
events this invocation created (in creation order), and whether the error
was re-thrown to BullMQ. -/
structure EmailProcResult where
  db : Db
  statusUpdates : List MessageUpdate
  emittedEvents : List EventRow
  rethrow : Bool
deriving Repr, DecidableEq

/-- Embedding of `EmailProcessor.process`.  `now` is the wall clock and
`jitter` the `Math.random() * 1000` sample used by `calculateBackoff`.
On transport success the message is marked SENT then immediately
DELIVERED and SENT/DELIVERED events are recorded; on failure the worker
either schedules a retry (status RETRYING, RETRY_SCHEDULED event,
re-throw) or terminally fails (status FAILED, FAILED event, optional
suppression upsert, no re-throw).  No webhook job is enqueued anywhere in
this function. -/
def EmailProcessor.process (db : Db) (job : EmailJobInfo)
    (transport : TransportResult) (now : Nat) (jitter : ℚ) : EmailProcResult :=
  let msgId := job.data.messageId
  let db0 := updateMessageStatus db msgId (MessageUpdate.plain .PROCESSING)
  match transport with
  | .sentOk providerMessageId response =>
    let db1 := updateMessageStatus db0 msgId
      { MessageUpdate.plain .SENT with externalId := some providerMessageId, sentAt := some now }
    let db2 := updateMessageStatus db1 msgId
      { MessageUpdate.plain .DELIVERED with deliveredAt := some now }
    let e1 : EventRow := { messageId := msgId, kind := .SENT
                           payload := .sent providerMessageId response }
    let e2 : EventRow := { messageId := msgId, kind := .DELIVERED
                           payload := .delivered true }
    { db := recordEvent (recordEvent db2 e1) e2
      statusUpdates := [MessageUpdate.plain .PROCESSING,
        { MessageUpdate.plain .SENT with externalId := some providerMessageId, sentAt := some now },
        { MessageUpdate.plain .DELIVERED with deliveredAt := some now }]
      emittedEvents := [e1, e2], rethrow := false }
  | .failed errorMessage =>
    let attempts := job.attemptsMade + 1
    let maxAttempts := jsOrNat job.optsAttempts configRetryMaxAttempts
    if attempts < maxAttempts then
      let db1 := updateMessageStatus db0 msgId
        { MessageUpdate.plain .RETRYING with error := some errorMessage }
      let e : EventRow := { messageId := msgId, kind := .RETRY_SCHEDULED
                            payload := .retryScheduled attempts errorMessage
                              ((now : ℚ) + calculateBackoff attempts jitter backoffDefaultBase backoffDefaultMax) }
      { db := recordEvent db1 e
        statusUpdates := [MessageUpdate.plain .PROCESSING,
          { MessageUpdate.plain .RETRYING with error := some errorMessage }]
        emittedEvents := [e], rethrow := true }
    else
      let db1 := updateMessageStatus db0 msgId
        { MessageUpdate.plain .FAILED with error := some errorMessage }
      let e : EventRow := { messageId := msgId, kind := .FAILED
                            payload := .failed errorMessage attempts }
      let db2 := recordEvent db1 e
      let db3 :=
        if isHardBounceError errorMessage then
          match job.data.toAddrs.head? with
          | some first => addToSuppressionList db2 msgId first.email errorMessage
          | none => db2
        else db2
      { db := db3
        statusUpdates := [MessageUpdate.plain .PROCESSING,
          { MessageUpdate.plain .FAILED with error := some errorMessage }]
        emittedEvents := [e], rethrow := false }

/-! ## BullMQ retry semantics for a `send-email` job

A job is run, and re-run after a failing run while the number of completed
runs is below the job's `attempts` option; an absent `attempts` option
means a single run.  `transport k` is the dispatch outcome of the run with
`attemptsMade = k`. -/

/-- Run a `send-email` job to queue-completion with the given run budget. -/
def runSendEmailLoop (jobData : SendEmailJobData) (optsAttempts : Option Nat)
    (transport : Nat → TransportResult) (now : Nat) (jitter : ℚ) :
    Nat → Nat → Db → Db
  | 0, _, db => db
  | fuel + 1, attemptsMade, db =>
    let r := EmailProcessor.process db
      { data := jobData, attemptsMade := attemptsMade, optsAttempts := optsAttempts }
      (transport attemptsMade) now jitter
    if r.rethrow && fuel != 0 then
      runSendEmailLoop jobData optsAttempts transport now jitter fuel (attemptsMade + 1) r.db
    else r.db

/-- Run a queued `send-email` job under BullMQ's retry policy: the total
run budget is `opts.attempts` (one run when absent). -/
def runSendEmailJob (db : Db) (job : SendEmailQueueJob)
    (transport : Nat → TransportResult) (now : Nat) (jitter : ℚ) : Db :=
  runSendEmailLoop job.data job.opts.attempts transport now jitter
    (jsOrNat job.opts.attempts 1) 0 db

/-! ## Webhook fan-out dispatcher (apps/api/src/services/webhook.ts) -/

/-- The per-`add` options `WebhookService.trigger` passes to
`queues.webhook.add`: `attempts 5`, exponential backoff base delay 5000 ms. -/
def webhookTriggerAddOptions : JobOptions :=
  { attempts := some 5
    backoff := some { kind := "exponential", delay := 5000 }
    priority := none, removeOnComplete := none, removeOnFail := none }

/-- Embedding of `WebhookService.trigger`: find the project's active
subscriptions whose event-type set has `eventType`; no-op if none; enqueue
one `webhook` job per match. -/
def WebhookService.trigger (db : Db) (projectId eventType : String)
    (data : List (String × String)) (now : Nat) : Db :=
  let matching := db.webhooks.filter (fun w =>
    w.projectId = projectId && w.active && w.eventTypes.contains eventType)
  match matching with
  | [] => db
  | _ =>
    let payload : WebhookPayload := { event := eventType, timestamp := now, data := data }
    { db with webhookJobs := db.webhookJobs ++ matching.map (fun w =>
        { name := "webhook:" ++ w.id ++ ":" ++ toString now
          webhookId := w.id
          eventType := eventType
          payload := payload
          opts := mergeJobOptions webhookQueueDefaultJobOptions webhookTriggerAddOptions }) }

/-! ## Idempotency store (apps/api/src/services/idempotency.ts) -/

/-- Fixed TTL of idempotency entries (24 hours in milliseconds). -/
def IDEMPOTENCY_TTL_MS : Nat := 24 * 60 * 60 * 1000

/-- `prisma.idempotencyKey.findUnique({where: {key}})`: the lookup (like the
unique index `idempotency_keys_key_key` of the migration) is on `key`
alone, not on `(key, scope)`. -/
def idemFindUnique (db : Db) (key : String) : Option IdemRecord :=
  db.idemKeys.find? (fun r => r.key = key)

/-- Result of `IdempotencyService.check`: possibly-pruned state and the
cached record, if any. -/
structure IdemCheckResult where
  db : Db
  cached : Option IdemRecord
deriving Repr, DecidableEq

/-- Embedding of `IdempotencyService.check`: find by key; lazily delete and
miss when expired; miss (without deleting) when the scope differs. -/
def IdempotencyService.check (db : Db) (key scope : String) (now : Nat) : IdemCheckResult :=
  match idemFindUnique db key with
  | none => { db := db, cached := none }
  | some record =>
    if now > record.expiresAt then
      { db := { db with idemKeys := db.idemKeys.filter (fun r => r.id ≠ record.id) }
        cached := none }
    else if record.scope ≠ scope then { db := db, cached := none }
    else { db := db, cached := some record }

/-- Embedding of `IdempotencyService.store`: a plain `create`; because the
table has the global unique index on `key`, creating an already-present
key raises Prisma `P2002`. -/
def IdempotencyService.store (db : Db) (rowId key scope : String)
    (respMessageId : String) (respStatus : MessageStatus) (now : Nat) :
    Except DbError Db :=
  if db.idemKeys.any (fun r => r.key = key) then .error .uniqueViolation
  else .ok { db with idemKeys :=
    { id := rowId, key := key, scope := scope
      responseMessageId := respMessageId, responseStatus := respStatus
      expiresAt := now + IDEMPOTENCY_TTL_MS } :: db.idemKeys }

/-! ## Template rendering (packages/shared/src/utils.ts) -/

/-- The `\x7b` character. -/
def openBrace : Char := Char.ofNat 123

/-- The `\x7d` character. -/
def closeBrace : Char := Char.ofNat 125

/-- A JS `\w` character. -/
def isWordChar (c : Char) : Bool := c.isAlphanum || c = '_'

/-- Character-level engine of `renderTemplate`'s global regex replace of
`\x7b\x7b(\w+)\x7d\x7d`: leftmost, non-overlapping matches; unknown keys
leave the match untouched.  `fuel` bounds recursion (the input length
suffices). -/
def renderTemplateAux (vars : List (String × String)) : Nat → List Char → List Char
  | 0, cs => cs
  | _ + 1, [] => []
  | fuel + 1, c1 :: rest =>
    if c1 = openBrace then
      match rest with
      | c2 :: rest2 =>
        if c2 = openBrace then
          match rest2.takeWhile isWordChar with
          | [] => c1 :: renderTemplateAux vars fuel rest
          | k =>
            match rest2.drop k.length with
            | a1 :: a2 :: rest3 =>
              if a1 = closeBrace && a2 = closeBrace then
                match vars.lookup (String.mk k) with
                | some v => v.data ++ renderTemplateAux vars fuel rest3
                | none =>
                  openBrace :: openBrace :: (k ++ closeBrace :: closeBrace :: renderTemplateAux vars fuel rest3)
              else c1 :: renderTemplateAux vars fuel rest
            | _ => c1 :: renderTemplateAux vars fuel rest
        else c1 :: renderTemplateAux vars fuel rest
      | [] => [c1]
    else c1 :: renderTemplateAux vars fuel rest

/-- Embedding of `renderTemplate`. -/
def renderTemplate (template : String) (vars : List (String × String)) : String :=
  String.mk (renderTemplateAux vars template.data.length template.data)

/-! ## Email send service (apps/api/src/services/email.ts) -/

/-- One entry of the `to` field once it is an array: string or object. -/
inductive RecipientInput where
  | str (s : String)
  | addr (a : EmailAddr)
deriving Repr, DecidableEq

/-- The request's `to` field: a bare string, an array, or one object. -/
inductive RecipientsField where
  | single (s : String)
  | many (rs : List RecipientInput)
  | one (a : EmailAddr)
deriving Repr, DecidableEq

/-- Embedding of `normalizeRecipients`. -/
def normalizeRecipients : RecipientsField → List EmailAddr
  | .single s => [{ email := s, name := none }]
  | .many rs => rs.map (fun r => match r with
      | .str s => { email := s, name := none }
      | .addr a => a)
  | .one a => [a]

/-- Embedding of `normalizeFrom`. -/
def normalizeFrom : String ⊕ EmailAddr → EmailAddr
  | .inl s => { email := s, name := none }
  | .inr a => a

/-- The validated send request body (shared `sendEmailWithOptionsSchema`,
minus the options which travel separately). -/
structure SendEmailRequest where
  toField : RecipientsField
  fromField : String ⊕ EmailAddr
  replyTo : Option String
  subject : String
  html : Option String
  text : Option String
  templateId : Option String
  varBindings : Option (List (String × String))
  attachments : Option (List Attachment)
  headers : List (String × String)
deriving Repr, DecidableEq

/-- `SendEmailOptions` of the service. -/
structure SendOptions where
  idempotencyKey : Option String
  tags : Option (List String)
  priority : Option String
deriving Repr, DecidableEq

/-- The service's `ApiResponse<{messageId, status}>`. -/
inductive ApiSendResponse where
  | success (messageId : String) (status : MessageStatus)
  | failure (code : String) (message : String)
deriving Repr, DecidableEq

/-- Per-call environment: the rate-limiter verdict (an external Redis
collaborator), the wall clock, and the generated ids. -/
structure SendEnv where
  rateAllowed : Bool
  now : Nat
  newMessageId : String
  newIdemRowId : String
deriving Repr, DecidableEq

/-- First recipient of the list carrying a suppression row for the
project, with its row — the send path's suppression loop (reads only the
`suppressions` table). -/
def firstSuppressed (supps : List SuppressionRow) (projectId : String) :
    List EmailAddr → Option (EmailAddr × SuppressionRow)
  | [] => none
  | r :: rest =>
    match supps.find? (fun s => s.projectId = projectId && s.email = r.email) with
    | some s => some (r, s)
    | none => firstSuppressed supps projectId rest

/-- Everything the send path has resolved by the time it starts writing:
recipients, sender, final subject/bodies, template binding. -/
structure ProceedData where
  toEmails : List EmailAddr
  fromAddr : EmailAddr
  subject : String
  htmlBody : Option String
  textBody : Option String
  templateId : Option String
  templateVars : Option (List (String × String))
deriving Repr, DecidableEq

/-- Outcome of the read-only first half of `sendEmail`: an early return
with a response, or the resolved data to persist. -/
inductive Phase1Out where
  | early (db : Db) (resp : ApiSendResponse)
  | proceed (db : Db) (pd : ProceedData)
deriving Repr, DecidableEq

/-- Template resolution and content validation of `sendEmail` (the part
after the suppression check). -/
def sendEmailResolveContent (db : Db) (projectId : String)
    (data : SendEmailRequest) (toEmails : List EmailAddr) : Phase1Out :=
  let fromA := normalizeFrom data.fromField
  let resolved : Except ApiSendResponse (Option String × Option String × String × Option String × Option (List (String × String))) :=
    match data.templateId with
    | none => .ok (data.html, data.text, data.subject, none, none)
    | some tid =>
      match db.templates.find? (fun t => t.id = tid && t.projectId = projectId) with
      | none => .error (.failure "TEMPLATE_NOT_FOUND" ("Template with ID " ++ tid ++ " not found"))
      | some t =>
        let vars := data.varBindings.getD []
        .ok (t.html.map (fun h => renderTemplate h vars),
             t.text.map (fun x => renderTemplate x vars),
             renderTemplate t.subject vars,
             some t.id, some vars)
  match resolved with
  | .error resp => .early db resp
  | .ok (htmlBody, textBody, subject, templateId, templateVars) =>
    if htmlBody.isNone && textBody.isNone then
      .early db (.failure "MISSING_CONTENT" "Email must have either html, text, or a template with content")
    else
      .proceed db
        { toEmails := toEmails, fromAddr := fromA, subject := subject
          htmlBody := htmlBody, textBody := textBody
          templateId := templateId, templateVars := templateVars }

/-- Read-only first half of `EmailService.sendEmail`: rate limit,
idempotency pre-check, suppression loop, template resolution, content
validation.  No `Message` row, event, job or idempotency entry is written
here (the expired-entry lazy delete aside). -/
def EmailService.sendEmailPhase1 (env : SendEnv) (projectId : String)
    (data : SendEmailRequest) (options : SendOptions) (db : Db) : Phase1Out :=
  if !env.rateAllowed then
    .early db (.failure "RATE_LIMIT_EXCEEDED" "Rate limit exceeded. Please try again later.")
  else
    let afterIdem : Db × Option IdemRecord :=
      match options.idempotencyKey with
      | none => (db, none)
      | some key =>
        let chk := IdempotencyService.check db key ("send:" ++ projectId) env.now
        (chk.db, chk.cached)
    match afterIdem with
    | (db1, some record) => .early db1 (.success record.responseMessageId record.responseStatus)
    | (db1, none) =>
      let toEmails := normalizeRecipients data.toField
      match firstSuppressed db1.suppressions projectId toEmails with
      | some (r, supp) =>
        .early db1 (.failure "RECIPIENT_SUPPRESSED"
          ("Recipient " ++ r.email ++ " is suppressed: " ++ supp.reason))
      | none => sendEmailResolveContent db1 projectId data toEmails

/-- `priority: 'high'` maps to 1 and `'low'` to 10; anything else adds no
priority option. -/
def priorityOption : Option String → Option Nat
  | some "high" => some 1
  | some "low" => some 10
  | _ => none

/-- Writing second half of `EmailService.sendEmail`: create the `Message`
row, append the QUEUED event, enqueue the `send-email` job (over the API
queue's default job options), then store the idempotency entry — whose
`create` can raise the unique violation after everything else is already
persisted. -/
def EmailService.sendEmailPhase2 (env : SendEnv) (projectId apiKeyId : String)
    (data : SendEmailRequest) (options : SendOptions) (pd : ProceedData)
    (db : Db) : Db × Except DbError ApiSendResponse :=
  let msgRow : MessageRow :=
    { id := env.newMessageId
      projectId := projectId
      toEmail := String.intercalate ", " (pd.toEmails.map (fun r => r.email))
      toName := (pd.toEmails.find? (fun r => r.name.isSome)).bind (fun r => r.name)
      fromEmail := pd.fromAddr.email
      fromName := pd.fromAddr.name
      replyTo := data.replyTo
      subject := pd.subject
      htmlBody := pd.htmlBody
      textBody := pd.textBody
      templateId := pd.templateId
      status := .QUEUED
      error := none
      externalId := none
      tags := options.tags.getD []
      idempotencyKey := options.idempotencyKey
      sentAt := none
      deliveredAt := none }
  let db1 := { db with messages := msgRow :: db.messages }
  let db2 := recordEvent db1
    { messageId := env.newMessageId, kind := .QUEUED
      payload := .queuedApi apiKeyId env.now }
  let jobData : SendEmailJobData :=
    { messageId := env.newMessageId, projectId := projectId
      toAddrs := pd.toEmails, fromAddr := pd.fromAddr
      replyTo := data.replyTo, subject := pd.subject
      htmlBody := pd.htmlBody, textBody := pd.textBody
      attachments := data.attachments, headers := data.headers }
  let job : SendEmailQueueJob :=
    { name := "send:" ++ env.newMessageId
      data := jobData
      opts := mergeJobOptions apiQueueDefaultJobOptions
        { JobOptions.empty with priority := priorityOption options.priority } }
  let db3 := { db2 with sendEmailJobs := db2.sendEmailJobs ++ [job] }
  match options.idempotencyKey with
  | some key =>
    match IdempotencyService.store db3 env.newIdemRowId key ("send:" ++ projectId)
        env.newMessageId .QUEUED env.now with
    | .error e => (db3, .error e)
    | .ok db4 => (db4, .ok (.success env.newMessageId .QUEUED))
  | none => (db3, .ok (.success env.newMessageId .QUEUED))

/-- Embedding of `EmailService.sendEmail`: the two halves in sequence, on
one uninterrupted state (a call that runs alone). -/
def EmailService.sendEmail (env : SendEnv) (projectId apiKeyId : String)
    (data : SendEmailRequest) (options : SendOptions) (db : Db) :
    Db × Except DbError ApiSendResponse :=
  match EmailService.sendEmailPhase1 env projectId data options db with
  | .early db1 resp => (db1, .ok resp)
  | .proceed db1 pd => EmailService.sendEmailPhase2 env projectId apiKeyId data options pd db1

/-! ## Inbound SMTP relay (apps/api/src/smtpRelay.ts) -/

/-- Project lifecycle status (`ProjectStatus` enum). -/
inductive ProjectStatus where
  | ACTIVE | SUSPENDED | DELETED
deriving Repr, DecidableEq

/-- An `api_keys` row as read by the relay's auth handler. -/
structure ApiKeyRow where
  id : String
  keyHash : String
  scopes : List String
  revokedAt : Option Nat
deriving Repr, DecidableEq

/-- A `projects` row with its included API keys. -/
structure ProjectRow where
  id : String
  status : ProjectStatus
  apiKeys : List ApiKeyRow
deriving Repr, DecidableEq

/-- Outcome of the auth callback: an error message or the authenticated
project id. -/
inductive AuthOutcome where
  | err (msg : String)
  | authed (projectId : String)
deriving Repr, DecidableEq

/-- What the key loop of `handleAuth` concluded. -/
inductive KeyScanResult where
  /-- Some non-revoked key matched and has the `send:email` scope. -/
  | valid
  /-- Some non-revoked key matched but lacks the `send:email` scope; the
  handler returns its dedicated error immediately. -/
  | noScope
  /-- No non-revoked key matched. -/
  | noMatch
deriving Repr, DecidableEq

/-- The `for (const key of project.apiKeys)` loop: skip revoked keys,
`bcrypt.compare` the password against each hash (`compare` is the bcrypt
collaborator), and on the first match check the `send:email` scope. -/
def scanApiKeys (compare : String → String → Bool) (password : String) :
    List ApiKeyRow → KeyScanResult
  | [] => .noMatch
  | k :: rest =>
    if k.revokedAt.isSome then scanApiKeys compare password rest
    else if compare password k.keyHash then
      if k.scopes.contains "send:email" then .valid else .noScope
    else scanApiKeys compare password rest

/-- Embedding of `SmtpRelayServer.handleAuth`.  `projectLookup` is the
result of `prisma.project.findUnique({where: {id: username}})`.  (The
`lastUsedAt` bump on the matching key is not modelled; no claim reads
it.) -/
def SmtpRelayServer.handleAuth (username password : Option String)
    (projectLookup : Option ProjectRow)
    (compare : String → String → Bool) : AuthOutcome :=
  match username, password with
  | some _, some pw =>
    (match projectLookup with
     | none => .err "Invalid credentials"
     | some project =>
       if project.status ≠ .ACTIVE then .err "Invalid credentials"
       else
         match scanApiKeys compare pw project.apiKeys with
         | .noScope => .err "API key does not have email sending permission"
         | .noMatch => .err "Invalid credentials"
         | .valid => .authed project.id)
  | _, _ => .err "Authentication required"

/-- The parsed MIME message (`mailparser` output) as `handleData` reads it. -/
structure ParsedMailModel where
  fromAddr : Option EmailAddr
  replyTo : Option String
  subject : Option String
  html : Option String
  text : Option String
  attachments : List Attachment
deriving Repr, DecidableEq

/-- First envelope recipient with a suppression row — the `handleData`
suppression loop over `envelopeTo`. -/
def firstSuppressedEnvelope (supps : List SuppressionRow) (projectId : String) :
    List String → Option String
  | [] => none
  | r :: rest =>
    match supps.find? (fun s => s.projectId = projectId && s.email = r) with
    | some _ => some r
    | none => firstSuppressedEnvelope supps projectId rest

/-- Outcome of `handleData`: the state and the error handed to the SMTP
callback, if any (an error rejects the whole transaction). -/
structure SmtpDataResult where
  db : Db
  errorMsg : Option String
deriving Repr, DecidableEq

/-- Embedding of `SmtpRelayServer.handleData`: check every envelope
recipient against the suppression table and reject the whole transaction
on the first hit; otherwise persist the parsed message (status QUEUED,
tag `smtp-relay`), append a QUEUED event, and enqueue a `send-email` job
named `smtp:<id>` with no per-add options on the relay's own queue —
which was constructed without `defaultJobOptions`. -/
def SmtpRelayServer.handleData (db : Db) (projectId : Option String)
    (envelopeFrom : String) (envelopeTo : List String)
    (parsed : ParsedMailModel) (newMessageId : String) : SmtpDataResult :=
  match projectId with
  | none => { db := db, errorMsg := some "Not authenticated" }
  | some pid =>
    match firstSuppressedEnvelope db.suppressions pid envelopeTo with
    | some r => { db := db, errorMsg := some ("Recipient " ++ r ++ " is suppressed") }
    | none =>
      let fromEmail := match parsed.fromAddr with
        | some a => a.email
        | none => envelopeFrom
      let msgRow : MessageRow :=
        { id := newMessageId
          projectId := pid
          toEmail := String.intercalate ", " envelopeTo
          toName := none
          fromEmail := fromEmail
          fromName := parsed.fromAddr.bind (fun a => a.name)
          replyTo := parsed.replyTo
          subject := parsed.subject.getD "(no subject)"
          htmlBody := parsed.html
          textBody := parsed.text
          templateId := none
          status := .QUEUED
          error := none
          externalId := none
          tags := ["smtp-relay"]
          idempotencyKey := none
          sentAt := none
          deliveredAt := none }
      let db1 := { db with messages := msgRow :: db.messages }
      let db2 := recordEvent db1
        { messageId := newMessageId, kind := .QUEUED, payload := .queuedSmtp }
      let jobData : SendEmailJobData :=
        { messageId := newMessageId, projectId := pid
          toAddrs := envelopeTo.map (fun e => { email := e, name := none })
          fromAddr := { email := fromEmail, name := parsed.fromAddr.bind (fun a => a.name) }
          replyTo := parsed.replyTo
          subject := parsed.subject.getD "(no subject)"
          htmlBody := parsed.html
          textBody := parsed.text
          attachments := some parsed.attachments
          headers := [] }
      let job : SendEmailQueueJob :=
        { name := "smtp:" ++ newMessageId
          data := jobData
          opts := mergeJobOptions smtpRelayQueueDefaultJobOptions JobOptions.empty }
      { db := { db2 with sendEmailJobs := db2.sendEmailJobs ++ [job] }
        errorMsg := none }

/-- Decidable equality for the send service's `Except` results (used to
evaluate concrete runs). -/
instance : DecidableEq (Except DbError ApiSendResponse) := fun x y =>
  match x, y with
  | .ok a, .ok b =>
    if h : a = b then isTrue (by rw [h]) else isFalse (fun he => h (by injection he))
  | .error a, .error b =>
    if h : a = b then isTrue (by rw [h]) else isFalse (fun he => h (by injection he))
  | .ok _, .error _ => isFalse (by simp)
  | .error _, .ok _ => isFalse (by simp)

/-! # Claims -/

/-! ## C8 — retry backoff formula, monotonicity, cap -/

/-- C8: the retry delay equals `min(base * 2^attempt + jitter, maxDelay)`
with jitter in `[0, 1000)`; with the worker defaults (base 1000 ms, max
60000 ms), for every attempt `a` and any pair of jitter samples the delay
at attempt `a + 1` is at least the delay at attempt `a`, and no computed
delay exceeds the maximum. -/
theorem claim_C8_backoff_formula_monotone_capped (a : Nat) (j1 j2 : ℚ)
    (hj1l : 0 ≤ j1) (hj1u : j1 < 1000) (hj2l : 0 ≤ j2) (hj2u : j2 < 1000) :
    calculateBackoff a j1 backoffDefaultBase backoffDefaultMax
        = min (backoffDefaultBase * 2 ^ a + j1) backoffDefaultMax
      ∧ calculateBackoff a j1 backoffDefaultBase backoffDefaultMax
        ≤ calculateBackoff (a + 1) j2 backoffDefaultBase backoffDefaultMax
      ∧ calculateBackoff a j1 backoffDefaultBase backoffDefaultMax ≤ backoffDefaultMax := by
  refine ⟨rfl, ?_, min_le_right _ _⟩
  have hpow : (1 : ℚ) ≤ 2 ^ a := one_le_pow₀ (by norm_num)
  apply min_le_min _ le_rfl
  have : (2 : ℚ) ^ (a + 1) = 2 ^ a + 2 ^ a := by ring
  rw [backoffDefaultBase, this]
  nlinarith

/-- Witness for C8 at attempt 3, jitter pair (999, 0). -/
theorem claim_C8_witness :
    (0 : ℚ) ≤ 999 ∧ (999 : ℚ) < 1000 ∧ (0 : ℚ) ≤ 0 ∧ (0 : ℚ) < 1000
      ∧ (calculateBackoff 3 999 backoffDefaultBase backoffDefaultMax
            = min (backoffDefaultBase * 2 ^ 3 + 999) backoffDefaultMax
          ∧ calculateBackoff 3 999 backoffDefaultBase backoffDefaultMax
            ≤ calculateBackoff 4 0 backoffDefaultBase backoffDefaultMax
          ∧ calculateBackoff 3 999 backoffDefaultBase backoffDefaultMax ≤ backoffDefaultMax) :=
  ⟨by norm_num, by norm_num, le_rfl, by norm_num,
    claim_C8_backoff_formula_monotone_capped 3 999 0
      (by norm_num) (by norm_num) le_rfl (by norm_num)⟩


/-! ## C1 — webhook delivery recording (code bug: double record on non-2xx) -/

/-- Empty database. -/
def emptyDb : Db :=
  { messages := [], events := [], suppressions := [], webhooks := []
    webhookDeliveries := [], idemKeys := [], templates := []
    sendEmailJobs := [], webhookJobs := [] }

/-- An existing, active webhook subscription. -/
def c1Webhook : WebhookRow :=
  { id := "wh1", projectId := "p1", url := "https://example.com/hook"
    secret := "whsec_abc", eventTypes := ["message.failed"], active := true
    successCount := 0, failCount := 0, lastTriggeredAt := none }

/-- State holding only that subscription. -/
def c1Db : Db := { emptyDb with webhooks := [c1Webhook] }

/-- The webhook job under delivery. -/
def c1Job : WebhookQueueJob :=
  { name := "webhook:wh1:1000", webhookId := "wh1", eventType := "message.failed"
    payload := { event := "message.failed", timestamp := 1000, data := [] }
    opts := mergeJobOptions webhookQueueDefaultJobOptions webhookTriggerAddOptions }

/-- C1 (code bug): processing a webhook job against an existing, active
subscription whose endpoint answers HTTP 500 records TWO
`webhook_deliveries` rows — first the response row (status 500, body,
no error), then, because the `throw new Error('HTTP 500')` of the non-2xx
branch is caught by the function's own `catch`, an error row
(`error = "HTTP 500"`, no status/body) — and increments the
subscription's fail counter twice, contradicting the claimed
exactly-one-row-per-attempt bookkeeping with mutually exclusive fields
and a fail-counter step of one.  (`WebhookService.deliver`, the sibling
implementation in the API service, records exactly one row here.) -/
theorem claim_C1_webhook_double_record_on_non2xx :
    (WebhookProcessor.process c1Db c1Job (.response 500 (some "upstream error")) 2000).newDeliveries
        = [{ webhookId := "wh1", eventType := "message.failed"
             responseStatus := some 500, responseBody := some "upstream error", error := none },
           { webhookId := "wh1", eventType := "message.failed"
             responseStatus := none, responseBody := none, error := some "HTTP 500" }]
      ∧ (WebhookProcessor.process c1Db c1Job (.response 500 (some "upstream error")) 2000).newDeliveries.length
        = 2
      ∧ ((WebhookProcessor.process c1Db c1Job (.response 500 (some "upstream error")) 2000).db.webhooks.find?
          (fun w => w.id = "wh1")).map (fun w => w.failCount) = some 2
      ∧ (WebhookProcessor.process c1Db c1Job (.response 500 (some "upstream error")) 2000).rethrow
        = some "HTTP 500" := by
  decide

/-! ## C2 — webhook fan-out on terminal states (code bug: never invoked) -/

/-- A message row sitting in the queue for the email worker. -/
def c2Message : MessageRow :=
  { id := "m1", projectId := "p1", toEmail := "a@x.com", toName := none
    fromEmail := "b@y.com", fromName := none, replyTo := none
    subject := "S", htmlBody := none, textBody := some "T"
    templateId := none, status := .QUEUED, error := none, externalId := none
    tags := [], idempotencyKey := none, sentAt := none, deliveredAt := none }

/-- An active subscription for the delivered event type in the message's
project. -/
def c2Webhook : WebhookRow :=
  { id := "wh2", projectId := "p1", url := "https://example.com/hook2"
    secret := "whsec_def", eventTypes := ["message.delivered"], active := true
    successCount := 0, failCount := 0, lastTriggeredAt := none }

/-- State with the message and the matching active subscription. -/
def c2Db : Db := { emptyDb with messages := [c2Message], webhooks := [c2Webhook] }

/-- The `send-email` job for that message. -/
def c2JobData : SendEmailJobData :=
  { messageId := "m1", projectId := "p1"
    toAddrs := [{ email := "a@x.com", name := none }]
    fromAddr := { email := "b@y.com", name := none }
    replyTo := none, subject := "S", htmlBody := none, textBody := some "T"
    attachments := none, headers := [] }

/-- C2 (code bug): the email worker moves the message into the terminal
state DELIVERED on transport success, yet enqueues no `webhook` job at
all — `EmailProcessor.process` never invokes the fan-out dispatcher, even
though an active subscription for the event type exists and
`WebhookService.trigger`, had it been called, would have enqueued exactly
one `webhook` job with `attempts 5` and exponential backoff base delay
5000 ms. -/
theorem claim_C2_no_fanout_on_terminal_state :
    ((EmailProcessor.process c2Db
          { data := c2JobData, attemptsMade := 0, optsAttempts := some 3 }
          (.sentOk "prov-1" "250 OK") 5000 0).db.messages.find?
        (fun m => m.id = "m1")).map (fun m => m.status) = some .DELIVERED
      ∧ (EmailProcessor.process c2Db
          { data := c2JobData, attemptsMade := 0, optsAttempts := some 3 }
          (.sentOk "prov-1" "250 OK") 5000 0).db.webhookJobs = []
      ∧ (WebhookService.trigger
          (EmailProcessor.process c2Db
            { data := c2JobData, attemptsMade := 0, optsAttempts := some 3 }
            (.sentOk "prov-1" "250 OK") 5000 0).db
          "p1" "message.delivered" [("messageId", "m1")] 5000).webhookJobs.length = 1
      ∧ (WebhookService.trigger
          (EmailProcessor.process c2Db
            { data := c2JobData, attemptsMade := 0, optsAttempts := some 3 }
            (.sentOk "prov-1" "250 OK") 5000 0).db
          "p1" "message.delivered" [("messageId", "m1")] 5000).webhookJobs.map
          (fun j => (j.webhookId, j.opts.attempts, j.opts.backoff))
        = [("wh2", some 5, some { kind := "exponential", delay := 5000 })] := by
  decide

/-! ## C3 — email worker failure handling: retry vs terminal -/

/-- C3: on a failed transport dispatch, if the attempt count (attemptsMade
plus one) is below the job's max attempts the worker sets the message to
RETRYING, emits one RETRY_SCHEDULED event carrying the computed
next-retry timestamp, and re-throws so the queue retries; once the
attempt count reaches the max it sets the message to FAILED, emits
exactly one FAILED event whose `attempts` payload equals the configured
max and whose error text is the transport error, and does not re-throw.
The hypothesis is the queue's lease invariant: a job is only handed to a
worker while its completed runs are below its max attempts. -/
theorem claim_C3_email_failure_retry_vs_terminal (db : Db) (job : EmailJobInfo)
    (err : String) (now : Nat) (jitter : ℚ)
    (hlease : job.attemptsMade < jsOrNat job.optsAttempts configRetryMaxAttempts) :
    (job.attemptsMade + 1 < jsOrNat job.optsAttempts configRetryMaxAttempts →
        (EmailProcessor.process db job (.failed err) now jitter).statusUpdates
          = [MessageUpdate.plain .PROCESSING,
             { MessageUpdate.plain .RETRYING with error := some err }]
        ∧ (EmailProcessor.process db job (.failed err) now jitter).emittedEvents
          = [{ messageId := job.data.messageId, kind := .RETRY_SCHEDULED
               payload := .retryScheduled (job.attemptsMade + 1) err
                 ((now : ℚ) + calculateBackoff (job.attemptsMade + 1) jitter
                    backoffDefaultBase backoffDefaultMax) }]
        ∧ (EmailProcessor.process db job (.failed err) now jitter).rethrow = true)
    ∧ (jsOrNat job.optsAttempts configRetryMaxAttempts ≤ job.attemptsMade + 1 →
        (EmailProcessor.process db job (.failed err) now jitter).statusUpdates
          = [MessageUpdate.plain .PROCESSING,
             { MessageUpdate.plain .FAILED with error := some err }]
        ∧ (EmailProcessor.process db job (.failed err) now jitter).emittedEvents
          = [{ messageId := job.data.messageId, kind := .FAILED
               payload := .failed err (jsOrNat job.optsAttempts configRetryMaxAttempts) }]
        ∧ (EmailProcessor.process db job (.failed err) now jitter).rethrow = false) := by
  constructor
  · intro hlt
    simp [EmailProcessor.process, if_pos hlt]
  · intro hge
    have heq : job.attemptsMade + 1 = jsOrNat job.optsAttempts configRetryMaxAttempts := by
      omega
    have hnlt : ¬ (job.attemptsMade + 1 < jsOrNat job.optsAttempts configRetryMaxAttempts) := by
      omega
    simp [EmailProcessor.process, if_neg hnlt, ← heq]

/-- Witness for C3: a job on its third and last allowed run
(attemptsMade 2, `opts.attempts` 3) whose dispatch fails. -/
theorem claim_C3_witness :
    (({ data := c2JobData, attemptsMade := 2, optsAttempts := some 3 } : EmailJobInfo).attemptsMade
        < jsOrNat (some 3) configRetryMaxAttempts)
      ∧ (jsOrNat (some 3) configRetryMaxAttempts ≤ 2 + 1
          → (EmailProcessor.process c2Db
                { data := c2JobData, attemptsMade := 2, optsAttempts := some 3 }
                (.failed "connection timed out") 7000 0).emittedEvents
            = [{ messageId := "m1", kind := .FAILED
                 payload := .failed "connection timed out" (jsOrNat (some 3) configRetryMaxAttempts) }]) :=
  ⟨by decide, fun h =>
    ((claim_C3_email_failure_retry_vs_terminal c2Db
        { data := c2JobData, attemptsMade := 2, optsAttempts := some 3 }
        "connection timed out" 7000 0 (by decide)).2 h).2.1⟩

/-! ## C9 — SMTP auth failure messages (corrected: scope failure leaks) -/

/-- A project whose single non-revoked key hash is "hash1" and whose
scopes lack `send:email`. -/
def c9Project : ProjectRow :=
  { id := "p1", status := .ACTIVE
    apiKeys := [{ id := "k1", keyHash := "hash1", scopes := ["logs:read"], revokedAt := none }] }

/-- The bcrypt collaborator for the counterexample: password "key1" is
the preimage of stored hash "hash1". -/
def c9Compare (password keyHash : String) : Bool :=
  password = "key1" && keyHash = "hash1"

/-- Counterexample to C9: with the same project, a wrong API key is
rejected with `Invalid credentials`, but the correct API key lacking the
`send:email` scope is rejected with the distinct message
`API key does not have email sending permission` — the rejection message
is not identical across the claimed failure causes and reveals that the
credentials were otherwise valid. -/
theorem claim_C9_counterexample :
    SmtpRelayServer.handleAuth (some "p1") (some "wrong-key") (some c9Project) c9Compare
        = .err "Invalid credentials"
      ∧ SmtpRelayServer.handleAuth (some "p1") (some "key1") (some c9Project) c9Compare
        = .err "API key does not have email sending permission"
      ∧ SmtpRelayServer.handleAuth (some "p1") (some "key1") (some c9Project) c9Compare
        ≠ SmtpRelayServer.handleAuth (some "p1") (some "wrong-key") (some c9Project) c9Compare := by
  decide

/-- C9 as amended: for the remaining three failure causes — unknown
project id, inactive project, or no non-revoked key matching the
password — the relay answers with the identical generic
`Invalid credentials` error, whatever the cause (two-run noninterference
over those causes); only the missing-scope cause deviates. -/
theorem claim_C9_amended_generic_rejection (username password : String)
    (projectLookup : Option ProjectRow) (compare : String → String → Bool)
    (hcause : projectLookup = none
      ∨ (∃ p, projectLookup = some p ∧ p.status ≠ .ACTIVE)
      ∨ (∃ p, projectLookup = some p ∧ p.status = .ACTIVE
            ∧ scanApiKeys compare password p.apiKeys = .noMatch)) :
    SmtpRelayServer.handleAuth (some username) (some password) projectLookup compare
      = .err "Invalid credentials" := by
  rcases hcause with h | ⟨p, hp, hst⟩ | ⟨p, hp, hst, hscan⟩
  · simp [SmtpRelayServer.handleAuth, h]
  · simp [SmtpRelayServer.handleAuth, hp, hst]
  · simp [SmtpRelayServer.handleAuth, hp, hst, hscan]

/-- Witness for C9's amended theorem: a suspended project. -/
theorem claim_C9_amended_witness :
    ((some ({ id := "p2", status := .SUSPENDED, apiKeys := [] } : ProjectRow)
        = (none : Option ProjectRow))
      ∨ (∃ p, some ({ id := "p2", status := .SUSPENDED, apiKeys := [] } : ProjectRow) = some p
            ∧ p.status ≠ .ACTIVE)
      ∨ (∃ p, some ({ id := "p2", status := .SUSPENDED, apiKeys := [] } : ProjectRow) = some p
            ∧ p.status = .ACTIVE ∧ scanApiKeys c9Compare "key1" p.apiKeys = .noMatch))
      ∧ SmtpRelayServer.handleAuth (some "p2") (some "key1")
          (some { id := "p2", status := .SUSPENDED, apiKeys := [] }) c9Compare
        = .err "Invalid credentials" :=
  ⟨Or.inr (Or.inl ⟨_, rfl, by decide⟩),
   claim_C9_amended_generic_rejection "p2" "key1"
     (some { id := "p2", status := .SUSPENDED, apiKeys := [] }) c9Compare
     (Or.inr (Or.inl ⟨_, rfl, by decide⟩))⟩

/-! ## C6 — SMTP path mirrors the API path (code bug: no retry options) -/

/-- The send request used for the C6 comparison (same message content on
both paths). -/
def c6Req : SendEmailRequest :=
  { toField := .single "a@x.com", fromField := .inl "b@y.com"
    replyTo := none, subject := "S", html := none, text := some "T"
    templateId := none, varBindings := none, attachments := none, headers := [] }

/-- Options for the API call: none. -/
def c6Opts : SendOptions := { idempotencyKey := none, tags := none, priority := none }

/-- Environment for the API call. -/
def c6Env : SendEnv :=
  { rateAllowed := true, now := 100, newMessageId := "mA", newIdemRowId := "iA" }

/-- The same message as the SMTP relay parses it. -/
def c6Parsed : ParsedMailModel :=
  { fromAddr := some { email := "b@y.com", name := none }, replyTo := none
    subject := some "S", html := none, text := some "T", attachments := [] }

/-- A transport that fails every dispatch with a transient error. -/
def c6FailTransport : Nat → TransportResult :=
  fun _ => .failed "connect ECONNREFUSED"

/-- C6 (code bug): the API path enqueues its `send-email` job with the
queue default `attempts: 3`, while the SMTP relay — whose queue was
constructed without `defaultJobOptions` — enqueues its job with no
`attempts` option at all; consequently, under the queue's retry
semantics and an identical always-failing transport, the API-submitted
message terminates FAILED after three runs, whereas the SMTP-submitted
message is run once, left RETRYING, and never retried — it does not
reach the same RETRYING/FAILED/DELIVERED outcome, contradicting
"mirroring the API path exactly". -/
theorem claim_C6_smtp_retry_policy_divergence :
    (EmailService.sendEmail c6Env "p1" "k1" c6Req c6Opts emptyDb).1.sendEmailJobs.map
        (fun j => j.opts.attempts) = [some 3]
      ∧ (SmtpRelayServer.handleData emptyDb (some "p1") "b@y.com"
          ["a@x.com"] c6Parsed "mS").db.sendEmailJobs.map
          (fun j => j.opts.attempts) = [none]
      ∧ ((EmailService.sendEmail c6Env "p1" "k1" c6Req c6Opts emptyDb).1.sendEmailJobs.foldl
            (fun db j => runSendEmailJob db j c6FailTransport 200 0)
            (EmailService.sendEmail c6Env "p1" "k1" c6Req c6Opts emptyDb).1).messages.map
            (fun m => (m.id, m.status)) = [("mA", .FAILED)]
      ∧ ((SmtpRelayServer.handleData emptyDb (some "p1") "b@y.com"
            ["a@x.com"] c6Parsed "mS").db.sendEmailJobs.foldl
            (fun db j => runSendEmailJob db j c6FailTransport 200 0)
            (SmtpRelayServer.handleData emptyDb (some "p1") "b@y.com"
              ["a@x.com"] c6Parsed "mS").db).messages.map
            (fun m => (m.id, m.status)) = [("mS", .RETRYING)]
      ∧ (MessageStatus.RETRYING ≠ MessageStatus.FAILED
          ∧ MessageStatus.RETRYING ≠ MessageStatus.DELIVERED) := by
  decide

/-! ## Shared lemmas about the idempotency store -/

/-- A key found by `findUnique` makes the store's unique-index predicate
fire. -/
theorem idem_any_of_find_some (db : Db) (key : String) (r : IdemRecord)
    (h : idemFindUnique db key = some r) :
    db.idemKeys.any (fun x => x.key = key) = true := by
  have hmem := List.mem_of_find?_eq_some h
  have hp := List.find?_some h
  simp only [List.any_eq_true]
  exact ⟨r, hmem, by simpa using hp⟩

/-- An absent key leaves the store's unique-index predicate false. -/
theorem idem_any_of_find_none (db : Db) (key : String)
    (h : idemFindUnique db key = none) :
    db.idemKeys.any (fun x => x.key = key) = false := by
  simp only [idemFindUnique, List.find?_eq_none] at h
  rw [Bool.eq_false_iff]
  intro hany
  rw [List.any_eq_true] at hany
  obtain ⟨x, hx, hxs⟩ := hany
  exact absurd hxs (h x hx)

/-- `check` misses when the key is absent, leaving the state unchanged. -/
theorem check_miss (db : Db) (k scope : String) (now : Nat)
    (hfind : idemFindUnique db k = none) :
    IdempotencyService.check db k scope now = { db := db, cached := none } := by
  unfold IdempotencyService.check
  rw [hfind]

/-- `check` misses on a fresh entry stored under a different scope,
leaving the state unchanged. -/
theorem check_scope_mismatch (db : Db) (k scope : String) (now : Nat) (r0 : IdemRecord)
    (hfind : idemFindUnique db k = some r0) (hfresh : now ≤ r0.expiresAt)
    (hscope : r0.scope ≠ scope) :
    IdempotencyService.check db k scope now = { db := db, cached := none } := by
  unfold IdempotencyService.check
  rw [hfind]
  simp [Nat.not_lt.mpr hfresh, hscope]

/-- `check` only ever touches the `idempotency_keys` table. -/
theorem check_preserves_tables (db : Db) (k scope : String) (now : Nat) :
    (IdempotencyService.check db k scope now).db.messages = db.messages
      ∧ (IdempotencyService.check db k scope now).db.events = db.events
      ∧ (IdempotencyService.check db k scope now).db.suppressions = db.suppressions
      ∧ (IdempotencyService.check db k scope now).db.sendEmailJobs = db.sendEmailJobs
      ∧ (IdempotencyService.check db k scope now).db.templates = db.templates := by
  unfold IdempotencyService.check
  cases idemFindUnique db k with
  | none => exact ⟨rfl, rfl, rfl, rfl, rfl⟩
  | some r =>
    dsimp only
    split_ifs <;> exact ⟨rfl, rfl, rfl, rfl, rfl⟩

/-- The read-only half of `sendEmail` proceeds (rate limit allowed, no
cached idempotency hit, no suppressed recipient, no template, content
present) with the request's own content. -/
theorem sendEmailPhase1_proceed (env : SendEnv) (projectId : String)
    (data : SendEmailRequest) (options : SendOptions) (db : Db)
    (hrate : env.rateAllowed = true)
    (hidem : match options.idempotencyKey with
      | none => True
      | some k => IdempotencyService.check db k ("send:" ++ projectId) env.now
          = { db := db, cached := none })
    (hsup : firstSuppressed db.suppressions projectId (normalizeRecipients data.toField) = none)
    (htpl : data.templateId = none)
    (hcontent : (data.html.isNone && data.text.isNone) = false) :
    EmailService.sendEmailPhase1 env projectId data options db
      = .proceed db
          { toEmails := normalizeRecipients data.toField
            fromAddr := normalizeFrom data.fromField
            subject := data.subject, htmlBody := data.html, textBody := data.text
            templateId := none, templateVars := none } := by
  unfold EmailService.sendEmailPhase1
  rw [hrate]
  cases hk : options.idempotencyKey with
  | none =>
    simp only [hk, Bool.not_true, Bool.false_eq_true, if_false, hsup]
    unfold sendEmailResolveContent
    rw [htpl]
    simp [hcontent]
  | some k =>
    rw [hk] at hidem
    simp only [hk, Bool.not_true, Bool.false_eq_true, if_false, hidem, hsup]
    unfold sendEmailResolveContent
    rw [htpl]
    simp [hcontent]

/-- A send call whose key has a fresh cached entry in the same scope
returns the cached response and leaves the state untouched. -/
theorem sendEmail_cached_replay (env : SendEnv) (P akid : String)
    (data : SendEmailRequest) (options : SendOptions) (db : Db) (K : String)
    (r : IdemRecord)
    (hrate : env.rateAllowed = true)
    (hkey : options.idempotencyKey = some K)
    (hfind : idemFindUnique db K = some r)
    (hfresh : ¬ env.now > r.expiresAt)
    (hscope : r.scope = "send:" ++ P) :
    EmailService.sendEmail env P akid data options db
      = (db, .ok (.success r.responseMessageId r.responseStatus)) := by
  unfold EmailService.sendEmail EmailService.sendEmailPhase1 IdempotencyService.check
  simp only [hrate, hkey]
  simp only [hfind]
  simp [hfresh, hscope]

/-! ## C10 — global unique idempotency key across scopes -/

/-- C10: the idempotency store's unique index is on `key` alone, so a send
call reusing a key that is already stored under a different scope passes
the pre-check (scope mismatch reads as a miss), creates the Message row,
records the QUEUED event and enqueues the `send-email` job — and then the
final `store` of the key raises the unique-constraint error, so the
caller receives an error although the message was created and queued. -/
theorem claim_C10_cross_scope_key_reuse (env : SendEnv) (projectId apiKeyId K : String)
    (data : SendEmailRequest) (options : SendOptions) (db : Db) (r0 : IdemRecord)
    (hrate : env.rateAllowed = true)
    (hkey : options.idempotencyKey = some K)
    (hfind : idemFindUnique db K = some r0)
    (hfresh : env.now ≤ r0.expiresAt)
    (hscope : r0.scope ≠ "send:" ++ projectId)
    (hsup : firstSuppressed db.suppressions projectId (normalizeRecipients data.toField) = none)
    (htpl : data.templateId = none)
    (hcontent : (data.html.isNone && data.text.isNone) = false) :
    (EmailService.sendEmail env projectId apiKeyId data options db).2
        = .error .uniqueViolation
      ∧ (EmailService.sendEmail env projectId apiKeyId data options db).1.messages.length
        = db.messages.length + 1
      ∧ ((EmailService.sendEmail env projectId apiKeyId data options db).1.messages.head?).map
          (fun m => (m.id, m.status)) = some (env.newMessageId, .QUEUED)
      ∧ (EmailService.sendEmail env projectId apiKeyId data options db).1.events.length
        = db.events.length + 1
      ∧ (EmailService.sendEmail env projectId apiKeyId data options db).1.sendEmailJobs.length
        = db.sendEmailJobs.length + 1
      ∧ (EmailService.sendEmail env projectId apiKeyId data options db).1.idemKeys
        = db.idemKeys := by
  have hchk := check_scope_mismatch db K ("send:" ++ projectId) env.now r0 hfind hfresh hscope
  have hp1 := sendEmailPhase1_proceed env projectId data options db hrate
    (by rw [hkey]; exact hchk) hsup htpl hcontent
  have hany := idem_any_of_find_some db K r0 hfind
  unfold EmailService.sendEmail
  rw [hp1]
  unfold EmailService.sendEmailPhase2
  rw [hkey]
  unfold IdempotencyService.store
  simp only [recordEvent]
  simp [hany, List.length_append]

/-- The state for the C10 witness: key `K10` cached under scope
`send:other`. -/
def c10Db : Db :=
  { emptyDb with idemKeys :=
      [{ id := "i0", key := "K10", scope := "send:other"
         responseMessageId := "m0", responseStatus := .QUEUED, expiresAt := 999999 }] }

/-- Options reusing key `K10`. -/
def c10Opts : SendOptions := { idempotencyKey := some "K10", tags := none, priority := none }

/-- Environment for the C10 witness call. -/
def c10Env : SendEnv :=
  { rateAllowed := true, now := 100, newMessageId := "mX", newIdemRowId := "iX" }

/-- Witness for C10: replaying key `K10` in project `p1` (scope
`send:p1`) against the `send:other` entry. -/
theorem claim_C10_witness :
    (c10Env.rateAllowed = true
        ∧ c10Opts.idempotencyKey = some "K10"
        ∧ idemFindUnique c10Db "K10"
          = some { id := "i0", key := "K10", scope := "send:other"
                   responseMessageId := "m0", responseStatus := .QUEUED, expiresAt := 999999 }
        ∧ c10Env.now ≤ 999999
        ∧ "send:other" ≠ "send:" ++ "p1"
        ∧ firstSuppressed c10Db.suppressions "p1" (normalizeRecipients c6Req.toField) = none
        ∧ c6Req.templateId = none
        ∧ (c6Req.html.isNone && c6Req.text.isNone) = false)
      ∧ ((EmailService.sendEmail c10Env "p1" "k1" c6Req c10Opts c10Db).2
          = .error .uniqueViolation
        ∧ (EmailService.sendEmail c10Env "p1" "k1" c6Req c10Opts c10Db).1.messages.length
          = c10Db.messages.length + 1
        ∧ ((EmailService.sendEmail c10Env "p1" "k1" c6Req c10Opts c10Db).1.messages.head?).map
            (fun m => (m.id, m.status)) = some (c10Env.newMessageId, .QUEUED)
        ∧ (EmailService.sendEmail c10Env "p1" "k1" c6Req c10Opts c10Db).1.events.length
          = c10Db.events.length + 1
        ∧ (EmailService.sendEmail c10Env "p1" "k1" c6Req c10Opts c10Db).1.sendEmailJobs.length
          = c10Db.sendEmailJobs.length + 1
        ∧ (EmailService.sendEmail c10Env "p1" "k1" c6Req c10Opts c10Db).1.idemKeys
          = c10Db.idemKeys) :=
  ⟨⟨rfl, rfl, by decide, by decide, by decide, by decide, rfl, by decide⟩,
   claim_C10_cross_scope_key_reuse c10Env "p1" "k1" "K10" c6Req c10Opts c10Db
     { id := "i0", key := "K10", scope := "send:other"
       responseMessageId := "m0", responseStatus := .QUEUED, expiresAt := 999999 }
     rfl rfl (by decide) (by decide) (by decide) (by decide) rfl (by decide)⟩

/-! ## C4 — idempotent duplicate sends (corrected: concurrent race) -/

/-- Options carrying idempotency key `K`. -/
def c4Opts : SendOptions := { idempotencyKey := some "K", tags := none, priority := none }

/-- Environment of the first racing call. -/
def c4EnvA : SendEnv :=
  { rateAllowed := true, now := 100, newMessageId := "m1", newIdemRowId := "i1" }

/-- Environment of the second racing call. -/
def c4EnvB : SendEnv :=
  { rateAllowed := true, now := 105, newMessageId := "m2", newIdemRowId := "i2" }

/-- The resolved content both racing calls arrive at. -/
def c4Pd : ProceedData :=
  { toEmails := [{ email := "a@x.com", name := none }]
    fromAddr := { email := "b@y.com", name := none }
    subject := "S", htmlBody := none, textBody := some "T"
    templateId := none, templateVars := none }

/-- Counterexample to C4 at a concurrent interleaving: two calls with the
same key and scope both run their read-only pre-check against the initial
state (each sees no cached entry and proceeds), then both run their
writing half in turn.  The first call succeeds; the second call creates a
SECOND Message row and a second job, and its final key store raises the
unique-constraint error instead of returning the cached response — so
under concurrency neither "identical cached response" nor "exactly one
Message row in total" holds (the check-then-store is not atomic). -/
theorem claim_C4_concurrent_counterexample :
    EmailService.sendEmailPhase1 c4EnvA "p1" c6Req c4Opts emptyDb = .proceed emptyDb c4Pd
      ∧ EmailService.sendEmailPhase1 c4EnvB "p1" c6Req c4Opts emptyDb = .proceed emptyDb c4Pd
      ∧ (EmailService.sendEmailPhase2 c4EnvA "p1" "k1" c6Req c4Opts c4Pd emptyDb).2
        = .ok (.success "m1" .QUEUED)
      ∧ (EmailService.sendEmailPhase2 c4EnvB "p1" "k2" c6Req c4Opts c4Pd
          (EmailService.sendEmailPhase2 c4EnvA "p1" "k1" c6Req c4Opts c4Pd emptyDb).1).2
        = .error .uniqueViolation
      ∧ (EmailService.sendEmailPhase2 c4EnvB "p1" "k2" c6Req c4Opts c4Pd
          (EmailService.sendEmailPhase2 c4EnvA "p1" "k1" c6Req c4Opts c4Pd emptyDb).1).1.messages.length
        = 2 := by
  decide

/-- C4 as amended: for duplicate calls that do NOT overlap — the first
call completes (including its key store) before the second begins —
every later call with the same key in the same scope within the 24-hour
TTL returns the identical cached response, writes nothing, and exactly
one Message row is created in total. -/
theorem claim_C4_sequential_replay (envA envB : SendEnv) (P akidA akidB K : String)
    (data : SendEmailRequest) (options : SendOptions) (db : Db)
    (hkey : options.idempotencyKey = some K)
    (hrA : envA.rateAllowed = true) (hrB : envB.rateAllowed = true)
    (hfind : idemFindUnique db K = none)
    (hsup : firstSuppressed db.suppressions P (normalizeRecipients data.toField) = none)
    (htpl : data.templateId = none)
    (hcontent : (data.html.isNone && data.text.isNone) = false)
    (httl : envB.now ≤ envA.now + IDEMPOTENCY_TTL_MS) :
    (EmailService.sendEmail envA P akidA data options db).2
        = .ok (.success envA.newMessageId .QUEUED)
      ∧ (EmailService.sendEmail envB P akidB data options
          (EmailService.sendEmail envA P akidA data options db).1)
        = ((EmailService.sendEmail envA P akidA data options db).1,
           .ok (.success envA.newMessageId .QUEUED))
      ∧ (EmailService.sendEmail envA P akidA data options db).1.messages.length
        = db.messages.length + 1 := by
  have hchkA := check_miss db K ("send:" ++ P) envA.now hfind
  have hp1 := sendEmailPhase1_proceed envA P data options db hrA
    (by rw [hkey]; exact hchkA) hsup htpl hcontent
  have hanyF := idem_any_of_find_none db K hfind
  have hA : EmailService.sendEmail envA P akidA data options db
      = ({ messages :=
             { id := envA.newMessageId
               projectId := P
               toEmail := String.intercalate ", "
                 ((normalizeRecipients data.toField).map (fun r => r.email))
               toName := ((normalizeRecipients data.toField).find?
                 (fun r => r.name.isSome)).bind (fun r => r.name)
               fromEmail := (normalizeFrom data.fromField).email
               fromName := (normalizeFrom data.fromField).name
               replyTo := data.replyTo
               subject := data.subject
               htmlBody := data.html
               textBody := data.text
               templateId := none
               status := .QUEUED
               error := none
               externalId := none
               tags := options.tags.getD []
               idempotencyKey := some K
               sentAt := none
               deliveredAt := none } :: db.messages
           events :=
             { messageId := envA.newMessageId, kind := .QUEUED
               payload := .queuedApi akidA envA.now } :: db.events
           suppressions := db.suppressions
           webhooks := db.webhooks
           webhookDeliveries := db.webhookDeliveries
           idemKeys :=
             { id := envA.newIdemRowId, key := K, scope := "send:" ++ P
               responseMessageId := envA.newMessageId, responseStatus := .QUEUED
               expiresAt := envA.now + IDEMPOTENCY_TTL_MS } :: db.idemKeys
           templates := db.templates
           sendEmailJobs := db.sendEmailJobs ++
             [{ name := "send:" ++ envA.newMessageId
                data := { messageId := envA.newMessageId, projectId := P
                          toAddrs := normalizeRecipients data.toField
                          fromAddr := normalizeFrom data.fromField
                          replyTo := data.replyTo, subject := data.subject
                          htmlBody := data.html, textBody := data.text
                          attachments := data.attachments, headers := data.headers }
                opts := mergeJobOptions apiQueueDefaultJobOptions
                  { JobOptions.empty with priority := priorityOption options.priority } }]
           webhookJobs := db.webhookJobs },
         .ok (.success envA.newMessageId .QUEUED)) := by
    unfold EmailService.sendEmail
    rw [hp1]
    unfold EmailService.sendEmailPhase2 IdempotencyService.store recordEvent
    simp only [hkey]
    simp [hanyF]
  rw [hA]
  refine ⟨rfl, ?_, by simp⟩
  refine sendEmail_cached_replay envB P akidB data options _ K
    { id := envA.newIdemRowId, key := K, scope := "send:" ++ P
      responseMessageId := envA.newMessageId, responseStatus := .QUEUED
      expiresAt := envA.now + IDEMPOTENCY_TTL_MS }
    hrB hkey ?_ ?_ rfl
  · simp [idemFindUnique]
  · simpa using Nat.not_lt.mpr httl

/-- Witness for C4's amended theorem: two sequential calls on the empty
state with key `K`. -/
theorem claim_C4_witness :
    (c4Opts.idempotencyKey = some "K"
        ∧ c4EnvA.rateAllowed = true ∧ c4EnvB.rateAllowed = true
        ∧ idemFindUnique emptyDb "K" = none
        ∧ firstSuppressed emptyDb.suppressions "p1" (normalizeRecipients c6Req.toField) = none
        ∧ c6Req.templateId = none
        ∧ (c6Req.html.isNone && c6Req.text.isNone) = false
        ∧ c4EnvB.now ≤ c4EnvA.now + IDEMPOTENCY_TTL_MS)
      ∧ ((EmailService.sendEmail c4EnvA "p1" "k1" c6Req c4Opts emptyDb).2
          = .ok (.success c4EnvA.newMessageId .QUEUED)
        ∧ (EmailService.sendEmail c4EnvB "p1" "k2" c6Req c4Opts
            (EmailService.sendEmail c4EnvA "p1" "k1" c6Req c4Opts emptyDb).1)
          = ((EmailService.sendEmail c4EnvA "p1" "k1" c6Req c4Opts emptyDb).1,
             .ok (.success c4EnvA.newMessageId .QUEUED))
        ∧ (EmailService.sendEmail c4EnvA "p1" "k1" c6Req c4Opts emptyDb).1.messages.length
          = emptyDb.messages.length + 1) :=
  ⟨⟨rfl, rfl, rfl, by decide, by decide, rfl, by decide, by decide⟩,
   claim_C4_sequential_replay c4EnvA c4EnvB "p1" "k1" "k2" "K" c6Req c4Opts emptyDb
     rfl rfl rfl (by decide) (by decide) rfl (by decide) (by decide)⟩

/-! ## C5 — suppression blocks sends (corrected: cached replay bypasses) -/

/-- State with recipient `a@x.com` suppressed in project `p1` AND a fresh
cached idempotency entry for key `K5` in scope `send:p1`. -/
def c5Db : Db :=
  { emptyDb with
      suppressions := [{ projectId := "p1", email := "a@x.com", reason := "MANUAL"
                         source := "manual", metadata := [] }]
      idemKeys := [{ id := "i0", key := "K5", scope := "send:p1"
                     responseMessageId := "m0", responseStatus := .QUEUED
                     expiresAt := 999999999 }] }

/-- Options replaying key `K5`. -/
def c5Opts : SendOptions := { idempotencyKey := some "K5", tags := none, priority := none }

/-- Environment of the replayed call. -/
def c5Env : SendEnv :=
  { rateAllowed := true, now := 100, newMessageId := "mY", newIdemRowId := "iY" }

/-- Counterexample to C5: the recipient has a Suppression row in the
project, yet this send call returns a cached SUCCESS response, not a
policy error — the idempotency pre-check runs before the suppression
check, so a replay whose key was cached before the suppression was added
is answered from the cache.  (No Message row is created and no job is
enqueued, but the claimed "returns a policy error" fails.) -/
theorem claim_C5_cached_replay_counterexample :
    (c5Db.suppressions.find? (fun s => s.projectId = "p1" && s.email = "a@x.com")).isSome = true
      ∧ (EmailService.sendEmail c5Env "p1" "k1" c6Req c5Opts c5Db).2
        = .ok (.success "m0" .QUEUED)
      ∧ (EmailService.sendEmail c5Env "p1" "k1" c6Req c5Opts c5Db).1 = c5Db := by
  decide

/-- C5 as amended: provided the call is not answered from the idempotency
cache (no key, or the key's cached entry misses) and the rate limiter
admits it, a `send` addressed to a recipient with a Suppression row in
the project returns the `RECIPIENT_SUPPRESSED` policy error and creates
no Message row, no event and no job; and an SMTP relay transaction any of
whose envelope recipients is suppressed is rejected as a whole, with no
message persisted and nothing enqueued for the other recipients. -/
theorem claim_C5_suppression_rejection (env : SendEnv) (P akid : String)
    (data : SendEmailRequest) (options : SendOptions) (db : Db)
    (r : EmailAddr) (supp : SuppressionRow)
    (hrate : env.rateAllowed = true)
    (hidem : match options.idempotencyKey with
      | none => True
      | some k => (IdempotencyService.check db k ("send:" ++ P) env.now).cached = none)
    (hsup : firstSuppressed db.suppressions P (normalizeRecipients data.toField)
      = some (r, supp)) :
    ((EmailService.sendEmail env P akid data options db).2
        = .ok (.failure "RECIPIENT_SUPPRESSED"
            ("Recipient " ++ r.email ++ " is suppressed: " ++ supp.reason))
      ∧ (EmailService.sendEmail env P akid data options db).1.messages = db.messages
      ∧ (EmailService.sendEmail env P akid data options db).1.events = db.events
      ∧ (EmailService.sendEmail env P akid data options db).1.sendEmailJobs
        = db.sendEmailJobs)
    ∧ (∀ (db2 : Db) (pid envFrom newId : String) (envTo : List String)
          (parsed : ParsedMailModel) (r2 : String),
        firstSuppressedEnvelope db2.suppressions pid envTo = some r2 →
        SmtpRelayServer.handleData db2 (some pid) envFrom envTo parsed newId
          = { db := db2, errorMsg := some ("Recipient " ++ r2 ++ " is suppressed") }) := by
  constructor
  · unfold EmailService.sendEmail EmailService.sendEmailPhase1
    rw [hrate]
    cases hk : options.idempotencyKey with
    | none =>
      simp [hk, hsup]
    | some k =>
      rw [hk] at hidem
      obtain ⟨hm, he, hs, hj, ht⟩ := check_preserves_tables db k ("send:" ++ P) env.now
      simp only [hk, Bool.not_true, Bool.false_eq_true, if_false, hidem, hs, hsup]
      simp [hm, he, hj]
  · intro db2 pid envFrom newId envTo parsed r2 hsup2
    unfold SmtpRelayServer.handleData
    dsimp only
    rw [hsup2]

/-- State for the C5 witness: the suppression row alone. -/
def c5WitnessDb : Db :=
  { emptyDb with
      suppressions := [{ projectId := "p1", email := "a@x.com", reason := "BOUNCE"
                         source := "bounce", metadata := [] }] }

/-- Witness for C5's amended theorem: a keyless send to the suppressed
recipient, and an SMTP transaction with the suppressed recipient among
two envelope recipients. -/
theorem claim_C5_witness :
    (c6Env.rateAllowed = true
        ∧ firstSuppressed c5WitnessDb.suppressions "p1" (normalizeRecipients c6Req.toField)
          = some ({ email := "a@x.com", name := none },
                  { projectId := "p1", email := "a@x.com", reason := "BOUNCE"
                    source := "bounce", metadata := [] })
        ∧ firstSuppressedEnvelope c5WitnessDb.suppressions "p1" ["other@x.com", "a@x.com"]
          = some "a@x.com")
      ∧ ((EmailService.sendEmail c6Env "p1" "k1" c6Req c6Opts c5WitnessDb).2
          = .ok (.failure "RECIPIENT_SUPPRESSED"
              ("Recipient " ++ "a@x.com" ++ " is suppressed: " ++ "BOUNCE"))
        ∧ (EmailService.sendEmail c6Env "p1" "k1" c6Req c6Opts c5WitnessDb).1.messages
          = c5WitnessDb.messages
        ∧ SmtpRelayServer.handleData c5WitnessDb (some "p1") "b@y.com"
            ["other@x.com", "a@x.com"] c6Parsed "mZ"
          = { db := c5WitnessDb
              errorMsg := some ("Recipient " ++ "a@x.com" ++ " is suppressed") }) :=
  ⟨⟨rfl, by decide, by decide⟩,
   have h := claim_C5_suppression_rejection c6Env "p1" "k1" c6Req c6Opts c5WitnessDb
     { email := "a@x.com", name := none }
     { projectId := "p1", email := "a@x.com", reason := "BOUNCE"
       source := "bounce", metadata := [] }
     rfl trivial (by decide)
   ⟨h.1.1, h.1.2.1,
    h.2 c5WitnessDb "p1" "b@y.com" "mZ" ["other@x.com", "a@x.com"] c6Parsed "a@x.com"
      (by decide)⟩⟩

/-! ## C7 — webhook signature round trip (supporting lemmas)

The round-trip and header-format conjuncts of C7 hold for any HMAC
collaborator whose digests are nonempty lowercase-hex strings (which
`digest('hex')` of HMAC-SHA256 always is); the single-byte
mutation-sensitivity conjunct is a collision property of the external
HMAC-SHA256 primitive and is not settled by this embedding. -/

/-- Scanning for the `v1=` marker skips any prefix without a `v`. -/
theorem extractV1Group_append_of_no_v (l rest : List Char)
    (h : ∀ c ∈ l, c ≠ 'v') :
    extractV1Group (l ++ rest) = extractV1Group rest := by
  induction l with
  | nil => rfl
  | cons c cs ih =>
    have hc : c ≠ 'v' := h c (List.mem_cons_self c cs)
    simp only [List.cons_append, extractV1Group, if_neg hc]
    exact ih (fun x hx => h x (List.mem_cons_of_mem c hx))

/-- The produced signature header is literally
`t=<timestamp>,v1=<digest>`. -/
theorem signWebhookPayload_header_format (hmacHex : String → String → String)
    (tsRepr payload secret : String) :
    signWebhookPayload hmacHex tsRepr payload secret
      = "t=" ++ tsRepr ++ ",v1=" ++ hmacHex secret payload := rfl

/-- Verifying a signature freshly produced over the same payload and
secret succeeds, provided the timestamp rendering is all digits and the
digest is a nonempty hex string. -/
theorem signWebhookPayload_verify_roundtrip (hmacHex : String → String → String)
    (tsRepr payload secret : String)
    (hts : ∀ c ∈ tsRepr.data, c.isDigit = true)
    (hne : (hmacHex secret payload).data ≠ [])
    (hhex : ∀ c ∈ (hmacHex secret payload).data, isHexChar c = true) :
    verifyWebhookPayload hmacHex payload
      (signWebhookPayload hmacHex tsRepr payload secret) secret = true := by
  unfold verifyWebhookPayload signWebhookPayload
  have hdata : ("t=" ++ tsRepr ++ ",v1=" ++ hmacHex secret payload).data
      = ('t' :: '=' :: tsRepr.data ++ [','])
        ++ ('v' :: '1' :: '=' :: (hmacHex secret payload).data) := by
    simp [String.data_append]
  rw [hdata, extractV1Group_append_of_no_v]
  · have htake : (hmacHex secret payload).data.takeWhile isHexChar
        = (hmacHex secret payload).data := by
      rw [List.takeWhile_eq_self_iff]
      exact fun c hc => hhex c hc
    simp only [extractV1Group, if_pos rfl]
    rw [htake]
    cases hd : (hmacHex secret payload).data with
    | nil => exact absurd hd hne
    | cons a as =>
      have hmk : String.mk (a :: as) = hmacHex secret payload := String.ext (by rw [hd])
      simp [hmk]
  · intro c hc
    rcases List.mem_cons.mp hc with rfl | hc
    · decide
    rcases List.mem_cons.mp hc with rfl | hc
    · decide
    rcases List.mem_append.mp hc with hc | hc
    · intro he
      have := hts c hc
      rw [he] at this
      exact absurd this (by decide)
    · rcases List.mem_singleton.mp hc with rfl
      decide

end TransactionMail
